import Mathlib

/-!
Verification of the `mangos` repository: a shallow embedding of
`src/preprocessing.py` and `src/ocr.py`.

An image is modelled as a pixel grid: `width`, `height`, `channels` and a
total pixel accessor `px c x y` (channel, column, row), with the pixels of
the file being those at `c < channels`, `x < width`, `y < height`.

Third-party library calls are translated as follows.
* `PIL.Image.convert("L")` becomes `convertL` (Pillow's fixed-point ITU-R
  601-2 luma for 3+ channels, the first channel otherwise).
* `np.mean(gray) > 127` is the exact rational mean comparison; an empty
  image gives `0 / 0 = 0` on the rational side, matching the falsity of
  the NaN comparison on the NumPy side.
* `cv2.adaptiveThreshold(src, 255, ADAPTIVE_THRESH_GAUSSIAN_C, ttype, 11, 2)`
  becomes `adaptiveThreshold meanOp 255 inv 2 src`, where `meanOp` is an
  arbitrary neighbourhood-mean operator standing for the Gaussian-weighted
  block-size-11 local mean computed inside OpenCV (a black-box library
  routine; every theorem quantifies over it).  The per-pixel rule
  `dst = maxValue if src > mean - C else 0` (resp. inverted) is concrete.
* `cv2.morphologyEx(img, MORPH_CLOSE, ones(3,3), iterations=1)` becomes
  `morphClose3`: a 3x3 local maximum (dilation) followed by a 3x3 local
  minimum (erosion), the window clipped at the borders exactly as OpenCV's
  default morphological border handling does.
* `ImageEnhance.Contrast(img).enhance(2)` becomes `contrastEnhance2`:
  Pillow computes the rounded mean `m` of the image and blends,
  giving per pixel `clip8 (2*p - m)`.
* `sys.exit`, file writes and exceptions of the CLI entry points are
  modelled by explicit exit codes, an `Option Img` file-system cell and
  `Except`-valued parameters standing for the fallible library calls.
-/

structure Img where
  width : Nat
  height : Nat
  channels : Nat
  px : Nat → Nat → Nat → Nat

/-- Number of pixels of the grid, `np_image.size` for a single-channel image. -/
def totalPixels (g : Img) : Nat := g.width * g.height

/-- The values of row `y` (channel 0), left to right. -/
def rowVals (g : Img) (y : Nat) : List Nat :=
  (List.range g.width).map (fun x => g.px 0 x y)

/-- Sum of all channel-0 pixel values of the grid. -/
def sumPx (g : Img) : Nat :=
  ((List.range g.height).map (fun y => (rowVals g y).sum)).sum

/-- Number of pixels with value strictly above 250 (`np.sum(np_image > 250)`). -/
def whiteCount (g : Img) : Nat :=
  ((List.range g.height).map (fun y => (rowVals g y).countP (fun v => decide (250 < v)))).sum

/-- Pillow's fixed-point ITU-R 601-2 luma: `(19595 R + 38470 G + 7471 B) >> 16`. -/
def lumaL (r g b : Nat) : Nat := (19595 * r + 38470 * g + 7471 * b) / 65536

/-- `image.convert("L")`: single-channel output; images that already have at
most two channels (L, LA) keep channel 0, richer modes go through the luma. -/
def convertL (img : Img) : Img :=
  { width := img.width, height := img.height, channels := 1,
    px := fun _ x y =>
      if img.channels ≤ 2 then img.px 0 x y
      else lumaL (img.px 0 x y) (img.px 1 x y) (img.px 2 x y) }

/-- `np.mean(gray)` as an exact rational (0 on an empty grid). -/
def meanBrightness (g : Img) : ℚ := (sumPx g : ℚ) / (totalPixels g : ℚ)

/-- `is_text_dark` of `preprocessing.py`: `np.mean(gray) > 127`, written in
the exact cross-multiplied integer form.  For a nonempty grid this is
`sum / total > 127`; for an empty grid it is false, exactly as NumPy's
`nan > 127` is false. -/
def is_text_dark (image : Img) : Bool :=
  decide (127 * totalPixels (convertL image) < sumPx (convertL image))

/-- `cv2.adaptiveThreshold` with an abstract neighbourhood-mean operator
`meanOp` (the Gaussian-weighted block-size-11 mean of OpenCV): threshold
`T(x,y) = meanOp(src)(x,y) - c`; `THRESH_BINARY` (`inv = false`) maps a pixel
to `maxValue` iff `src > T`, `THRESH_BINARY_INV` (`inv = true`) to 0 iff
`src > T`. -/
def adaptiveThreshold (meanOp : Img → Img) (maxValue : Nat) (inv : Bool)
    (c : Int) (src : Img) : Img :=
  { width := src.width, height := src.height, channels := 1,
    px := fun _ x y =>
      if inv then
        if ((meanOp src).px 0 x y : Int) - c < (src.px 0 x y : Int) then 0 else maxValue
      else
        if ((meanOp src).px 0 x y : Int) - c < (src.px 0 x y : Int) then maxValue else 0 }

/-- Indices of the 3-window centred at `i` inside `[0, n)`, border clipped. -/
def nbrIdx (n i : Nat) : List Nat :=
  (if i = 0 then [] else [i - 1]) ++ [i] ++ (if i + 1 < n then [i + 1] else [])

/-- Fold a binary selection `f` over the clipped 3x3 window centred at `(x, y)`,
seeded with the centre value. -/
def windowFold (f : Nat → Nat → Nat) (g : Img) (x y : Nat) : Nat :=
  (nbrIdx g.height y).foldl
    (fun acc j => (nbrIdx g.width x).foldl (fun a i => f a (g.px 0 i j)) acc)
    (g.px 0 x y)

/-- `cv2.dilate` with the all-ones 3x3 kernel: local maximum. -/
def dilate3 (g : Img) : Img :=
  { width := g.width, height := g.height, channels := 1,
    px := fun _ x y => windowFold max g x y }

/-- `cv2.erode` with the all-ones 3x3 kernel: local minimum. -/
def erode3 (g : Img) : Img :=
  { width := g.width, height := g.height, channels := 1,
    px := fun _ x y => windowFold min g x y }

/-- `cv2.morphologyEx(img, cv2.MORPH_CLOSE, ones(3,3), iterations=1)`:
dilation followed by erosion. -/
def morphClose3 (g : Img) : Img := erode3 (dilate3 g)

/-- Clipping of an integer to the byte range, as Pillow's `CLIP8`. -/
def clip8 (v : Int) : Nat :=
  if v ≤ 0 then 0 else if 255 ≤ v then 255 else v.toNat

/-- The rounded mean `int(mean + 0.5)` used by `ImageEnhance.Contrast`. -/
def contrastMean (g : Img) : Nat :=
  (2 * sumPx g + totalPixels g) / (2 * totalPixels g)

/-- `ImageEnhance.Contrast(img).enhance(2)` on an `L` image: per pixel
`clip8 (2 * p - m)` with `m` the rounded image mean. -/
def contrastEnhance2 (g : Img) : Img :=
  { width := g.width, height := g.height, channels := 1,
    px := fun _ x y => clip8 (2 * (g.px 0 x y : Int) - (contrastMean g : Int)) }

/-- The local `grayscale_image` of `preprocess_image`. -/
def grayscale_image (image : Img) : Img := convertL image

/-- The local `adaptive_thresh_image` of `preprocess_image`: polarity chosen
by `is_text_dark`, Gaussian-mean operator `meanOp`, maxValue 255, offset 2. -/
def adaptive_thresh_image (meanOp : Img → Img) (image : Img) : Img :=
  if is_text_dark image then
    adaptiveThreshold meanOp 255 false 2 (grayscale_image image)
  else
    adaptiveThreshold meanOp 255 true 2 (grayscale_image image)

/-- The local `morph_image` of `preprocess_image`: unconditional 3x3
one-iteration closing of the thresholded image. -/
def morph_image (meanOp : Img → Img) (image : Img) : Img :=
  morphClose3 (adaptive_thresh_image meanOp image)

/-- The `white_ratio` of `preprocess_image` as an exact rational:
`np.sum(np_image > 250) / np_image.size`. -/
def whiteFraction (g : Img) : ℚ := (whiteCount g : ℚ) / (totalPixels g : ℚ)

/-- Whether `preprocess_image` takes the contrast-enhancement branch:
`white_ratio < 0.5` computed on the closed image, written in the exact
cross-multiplied integer form (`white / total < 1/2` for a nonempty grid;
false for an empty one, exactly as NumPy's `nan < 0.5` is false). -/
def contrast_applied (meanOp : Img → Img) (image : Img) : Bool :=
  decide (2 * whiteCount (morph_image meanOp image) < totalPixels (morph_image meanOp image))

/-- The final `result_image` that `preprocess_image` saves. -/
def result_image (meanOp : Img → Img) (image : Img) : Img :=
  if contrast_applied meanOp image then
    contrastEnhance2 (morph_image meanOp image)
  else
    morph_image meanOp image

/-- `preprocess_image(image_path)` as a state transformer on the file at the
path.  `fs` is the current file content (`none` when no file exists),
`decode` models `Image.open` on that content, and `procErr image` models an
exception raised by one of the processing library calls after a successful
load.  The result is the process exit code paired with the final file
content; the `try` block writes only at its last statement
(`result_image.save(image_path)`), and the `except` handler exits with 1. -/
def preprocess_image (meanOp : Img → Img) (decode : Option Img → Except String Img)
    (procErr : Img → Option String) (fs : Option Img) : Nat × Option Img :=
  match decode fs with
  | Except.error _ => (1, fs)
  | Except.ok image =>
    match procErr image with
    | some _ => (1, fs)
    | none => (0, some (result_image meanOp image))

/-- The `__main__` block of `preprocessing.py`: fewer than two `argv` entries
exit with 1 before touching the file, otherwise `preprocess_image` runs. -/
def preprocessing_main (meanOp : Img → Img) (decode : Option Img → Except String Img)
    (procErr : Img → Option String) (argv : List String) (fs : Option Img) :
    Nat × Option Img :=
  if argv.length < 2 then (1, fs)
  else preprocess_image meanOp decode procErr fs

/-- `initialize_ocr` of `ocr.py`.  `μ` is the type of the opaque model
object, `mangaOcr` the outcome of the `MangaOcr(force_cpu=True)` constructor
call.  The result is the returned value (`none` on a caught exception)
paired with the log lines emitted to the error stream. -/
def initialize_ocr (μ : Type) (mangaOcr : Except String μ) : Option μ × List String :=
  match mangaOcr with
  | Except.ok m =>
    (some m, ["Initializing OCR model", "OCR model initialized successfully"])
  | Except.error e =>
    (none, ["Initializing OCR model", "Error initializing OCR model: " ++ e])

/-- `perform_ocr` of `ocr.py`.  `callOcr` is the outcome of the `mocr(path)`
recognition call; the result is the returned value (`none` on a caught
exception) paired with the emitted log lines. -/
def perform_ocr (μ : Type) (callOcr : μ → String → Except String String)
    (mocr : μ) (image_path : String) : Option String × List String :=
  match callOcr mocr image_path with
  | Except.ok r =>
    (some r, ["Performing OCR on image: " ++ image_path, "OCR result: " ++ r])
  | Except.error e =>
    (none, ["Performing OCR on image: " ++ image_path, "Error performing OCR: " ++ e])

/-- The `__main__` block of `ocr.py`: exit code, standard-output lines and
standard-error lines (logging and error prints both go to the error
stream).  An empty recognition result is falsy in Python, hence the
`r = ""` test in the success branch. -/
def ocr_main (μ : Type) (mangaOcr : Except String μ)
    (callOcr : μ → String → Except String String) (argv : List String) :
    Nat × List String × List String :=
  if argv.length < 2 then (1, [], ["Insufficient arguments"])
  else if argv.getD 1 "" = "init" then
    match initialize_ocr μ mangaOcr with
    | (some _, logs) => (0, ["OCR model initialized"], logs)
    | (none, logs) => (0, [], logs ++ ["Error: OCR model initialization failed"])
  else if argv.getD 1 "" = "ocr" then
    if argv.length < 3 then (1, [], ["Image path not provided"])
    else
      match initialize_ocr μ mangaOcr with
      | (none, logs) => (0, [], logs ++ ["Error: OCR model initialization failed"])
      | (some m, logs) =>
        match perform_ocr μ callOcr m (argv.getD 2 "") with
        | (some r, logs2) =>
          if r = "" then (0, [], logs ++ logs2 ++ ["Error: OCR failed"])
          else (0, [r], logs ++ logs2)
        | (none, logs2) => (0, [], logs ++ logs2 ++ ["Error: OCR failed"])
  else (1, [], ["Unknown action: " ++ argv.getD 1 ""])

/-- A concrete single-pixel test image of brightness 200. -/
def testBright : Img :=
  { width := 1, height := 1, channels := 1, px := fun _ _ _ => 200 }

/-- Identity stand-in for the abstract neighbourhood-mean operator. -/
def idMean : Img → Img := fun g => g

/-- A decoder whose load always raises. -/
def decodeBad : Option Img → Except String Img := fun _ => Except.error ("bad")

/-- Processing never raises. -/
def noErr : Img → Option String := fun _ => none

/-- A recognition call that always raises. -/
def failCall : Unit → String → Except String String := fun _ _ => Except.error ("boom")

/-! Helper lemmas about the embedded operations. -/

/-- A fold preserves any predicate its step preserves. -/
lemma foldl_pres {α : Type} (P : Nat → Prop) (step : Nat → α → Nat)
    (hstep : ∀ a b, P a → P (step a b)) (l : List α) :
    ∀ a : Nat, P a → P (l.foldl step a) := by
  induction l with
  | nil => intro a ha; exact ha
  | cons b t ih => intro a ha; exact ih (step a b) (hstep a b ha)

/-- A window fold of a selective operation (one that always returns one of
its two arguments) stays inside any set containing all pixel values. -/
lemma windowFold_pres (P : Nat → Prop) (f : Nat → Nat → Nat)
    (hf : ∀ a b, f a b = a ∨ f a b = b) (g : Img)
    (hg : ∀ x y, P (g.px 0 x y)) (x y : Nat) : P (windowFold f g x y) := by
  unfold windowFold
  refine foldl_pres P _ ?_ _ _ (hg x y)
  intro a j ha
  refine foldl_pres P _ ?_ _ _ ha
  intro a2 i ha2
  rcases hf a2 (g.px 0 i j) with h | h
  · rw [h]; exact ha2
  · rw [h]; exact hg i j

/-- Every pixel produced by `adaptiveThreshold` is 0 or `maxValue`. -/
lemma adaptiveThreshold_px_mem (meanOp : Img → Img) (maxValue : Nat) (inv : Bool)
    (c : Int) (src : Img) (ch x y : Nat) :
    (adaptiveThreshold meanOp maxValue inv c src).px ch x y = 0 ∨
      (adaptiveThreshold meanOp maxValue inv c src).px ch x y = maxValue := by
  cases inv
  · unfold adaptiveThreshold
    dsimp only
    rw [if_neg (by decide : ¬(false = true))]
    split
    · right; rfl
    · left; rfl
  · unfold adaptiveThreshold
    dsimp only
    rw [if_pos rfl]
    split
    · left; rfl
    · right; rfl

/-- Every pixel of the thresholded stage is 0 or 255. -/
lemma adaptive_thresh_px_mem (meanOp : Img → Img) (image : Img) (c x y : Nat) :
    (adaptive_thresh_image meanOp image).px c x y = 0 ∨
      (adaptive_thresh_image meanOp image).px c x y = 255 := by
  unfold adaptive_thresh_image
  split
  · exact adaptiveThreshold_px_mem meanOp 255 false 2 (grayscale_image image) c x y
  · exact adaptiveThreshold_px_mem meanOp 255 true 2 (grayscale_image image) c x y

/-- Every pixel of the closed stage is 0 or 255: the morphological closing
selects existing pixel values. -/
lemma morph_px_mem (meanOp : Img → Img) (image : Img) (c x y : Nat) :
    (morph_image meanOp image).px c x y = 0 ∨
      (morph_image meanOp image).px c x y = 255 := by
  refine windowFold_pres (fun v => v = 0 ∨ v = 255) min min_choice
    (dilate3 (adaptive_thresh_image meanOp image)) ?_ x y
  intro i j
  refine windowFold_pres (fun v => v = 0 ∨ v = 255) max max_choice
    (adaptive_thresh_image meanOp image) ?_ i j
  intro i2 j2
  exact adaptive_thresh_px_mem meanOp image 0 i2 j2

/-- A list of naturals bounded by `n` sums to at most `length * n`. -/
lemma sum_le_mul (l : List Nat) (n : Nat) (h : ∀ x ∈ l, x ≤ n) :
    l.sum ≤ l.length * n := by
  induction l with
  | nil => simp
  | cons b t ih =>
    simp only [List.sum_cons, List.length_cons]
    have hb := h b (by simp)
    have ht := ih (fun x hx => h x (by simp [hx]))
    calc b + t.sum ≤ n + t.length * n := Nat.add_le_add hb ht
    _ = (t.length + 1) * n := by ring

/-- Pixel sum of a byte-valued grid is at most `255 * totalPixels`. -/
lemma sumPx_le (g : Img) (hg : ∀ x y, g.px 0 x y ≤ 255) :
    sumPx g ≤ 255 * totalPixels g := by
  unfold sumPx totalPixels
  have hrow : ∀ y, (rowVals g y).sum ≤ g.width * 255 := by
    intro y
    have h1 := sum_le_mul (rowVals g y) 255 ?_
    · simpa [rowVals] using h1
    · intro v hv
      simp only [rowVals, List.mem_map] at hv
      rcases hv with ⟨x, _, rfl⟩
      exact hg x y
  have h2 := sum_le_mul ((List.range g.height).map (fun y => (rowVals g y).sum))
    (g.width * 255) ?_
  · calc ((List.range g.height).map (fun y => (rowVals g y).sum)).sum
        ≤ ((List.range g.height).map (fun y => (rowVals g y).sum)).length * (g.width * 255) := h2
    _ = g.height * (g.width * 255) := by simp
    _ = 255 * (g.width * g.height) := by ring
  · intro v hv
    simp only [List.mem_map] at hv
    rcases hv with ⟨y, _, rfl⟩
    exact hrow y

/-- An empty grid has zero pixel sum. -/
lemma sumPx_eq_zero (g : Img) (h : totalPixels g = 0) : sumPx g = 0 := by
  unfold totalPixels at h
  unfold sumPx
  rcases Nat.mul_eq_zero.1 h with hw | hh
  · apply List.sum_eq_zero
    intro v hv
    simp only [List.mem_map] at hv
    rcases hv with ⟨y, _, rfl⟩
    simp [rowVals, hw]
  · simp [hh]

/-- The rounded mean used by the contrast enhancer never exceeds 255 on a
byte-valued grid. -/
lemma contrastMean_le (g : Img) (hg : ∀ x y, g.px 0 x y ≤ 255) :
    contrastMean g ≤ 255 := by
  unfold contrastMean
  rcases Nat.eq_zero_or_pos (totalPixels g) with h0 | hpos
  · simp [h0]
  · have hs := sumPx_le g hg
    have hlt : (2 * sumPx g + totalPixels g) / (2 * totalPixels g) < 256 := by
      rw [Nat.div_lt_iff_lt_mul (by omega)]
      omega
    omega

/-- `clip8` of a nonpositive value is 0. -/
lemma clip8_nonpos (v : Int) (h : v ≤ 0) : clip8 v = 0 := by
  unfold clip8; rw [if_pos h]

/-- `clip8` of a value at least 255 is 255. -/
lemma clip8_ge (v : Int) (h : 255 ≤ v) : clip8 v = 255 := by
  unfold clip8
  rw [if_neg (by omega), if_pos h]

/-- The 2x contrast enhancement maps a binary image to a binary image:
0 goes to 0 and 255 goes to 255. -/
lemma contrast_px_mem (g : Img) (hmem : ∀ x y, g.px 0 x y = 0 ∨ g.px 0 x y = 255)
    (c x y : Nat) :
    (contrastEnhance2 g).px c x y = 0 ∨ (contrastEnhance2 g).px c x y = 255 := by
  have h255 : ∀ i j, g.px 0 i j ≤ 255 := by
    intro i j; rcases hmem i j with h | h <;> omega
  have hm : contrastMean g ≤ 255 := contrastMean_le g h255
  show clip8 (2 * (g.px 0 x y : Int) - (contrastMean g : Int)) = 0 ∨
    clip8 (2 * (g.px 0 x y : Int) - (contrastMean g : Int)) = 255
  rcases hmem x y with h | h <;> rw [h]
  · left; exact clip8_nonpos _ (by omega)
  · right; exact clip8_ge _ (by push_cast; omega)

/-- The thresholded stage keeps the input width. -/
lemma adaptive_thresh_width (meanOp : Img → Img) (image : Img) :
    (adaptive_thresh_image meanOp image).width = image.width := by
  unfold adaptive_thresh_image; split <;> rfl

/-- The thresholded stage keeps the input height. -/
lemma adaptive_thresh_height (meanOp : Img → Img) (image : Img) :
    (adaptive_thresh_image meanOp image).height = image.height := by
  unfold adaptive_thresh_image; split <;> rfl

/-! The claims. -/

/-- C1: for every loaded image, the threshold polarity is chosen from the
mean brightness of the grayscale conversion: if the mean exceeds 127 the
pipeline applies the normal binary adaptive threshold (maxValue 255, offset
2, Gaussian-weighted block-size-11 mean operator `meanOp`), otherwise the
inverted one. -/
theorem preprocessing_polarity_choice (meanOp : Img → Img) (image : Img) :
    (127 < meanBrightness (convertL image) →
      adaptive_thresh_image meanOp image =
        adaptiveThreshold meanOp 255 false 2 (convertL image))
  ∧ (meanBrightness (convertL image) ≤ 127 →
      adaptive_thresh_image meanOp image =
        adaptiveThreshold meanOp 255 true 2 (convertL image)) := by
  constructor
  · intro h
    have hd : is_text_dark image = true := by
      unfold is_text_dark
      apply decide_eq_true
      rcases Nat.eq_zero_or_pos (totalPixels (convertL image)) with h0 | hpos
      · exfalso
        unfold meanBrightness at h
        rw [h0] at h
        norm_num at h
      · have ht : (0:ℚ) < (totalPixels (convertL image) : ℚ) := by exact_mod_cast hpos
        unfold meanBrightness at h
        rw [lt_div_iff₀ ht] at h
        exact_mod_cast h
    unfold adaptive_thresh_image grayscale_image
    rw [hd]
    rfl
  · intro h
    have hd : is_text_dark image = false := by
      unfold is_text_dark
      apply decide_eq_false
      intro hc
      rcases Nat.eq_zero_or_pos (totalPixels (convertL image)) with h0 | hpos
      · rw [h0, sumPx_eq_zero _ h0] at hc
        omega
      · have ht : (0:ℚ) < (totalPixels (convertL image) : ℚ) := by exact_mod_cast hpos
        have hq : (127:ℚ) < meanBrightness (convertL image) := by
          unfold meanBrightness
          rw [lt_div_iff₀ ht]
          exact_mod_cast hc
        linarith
    unfold adaptive_thresh_image grayscale_image
    rw [hd]
    rfl

/-- Witness for C1 on a concrete bright 1x1 image. -/
theorem preprocessing_polarity_choice_witness :
    adaptive_thresh_image idMean testBright =
      adaptiveThreshold idMean 255 false 2 (convertL testBright) := by
  apply (preprocessing_polarity_choice idMean testBright).1
  have h1 : sumPx (convertL testBright) = 200 := by decide
  have h2 : totalPixels (convertL testBright) = 1 := by decide
  unfold meanBrightness
  rw [h1, h2]
  norm_num

/-- C2: on every successful run, the 2x contrast enhancement is applied if
and only if the fraction of pixels of the closed image strictly brighter
than 250 is below one half; the saved image is the enhanced closed image in
that case and the closed image itself otherwise. -/
theorem contrast_iff_white_lt_half (meanOp : Img → Img) (image : Img)
    (htot : 0 < totalPixels (morph_image meanOp image)) :
    (contrast_applied meanOp image = true ↔
      whiteFraction (morph_image meanOp image) < 1 / 2)
  ∧ result_image meanOp image =
      (if contrast_applied meanOp image then contrastEnhance2 (morph_image meanOp image)
       else morph_image meanOp image) := by
  constructor
  · unfold contrast_applied whiteFraction
    simp only [decide_eq_true_eq]
    have ht : (0:ℚ) < (totalPixels (morph_image meanOp image) : ℚ) := by exact_mod_cast htot
    rw [div_lt_iff₀ ht]
    constructor
    · intro hn
      have hq : ((2 * whiteCount (morph_image meanOp image) : Nat) : ℚ) <
          ((totalPixels (morph_image meanOp image) : Nat) : ℚ) := by exact_mod_cast hn
      push_cast at hq
      linarith
    · intro hq
      have hn : ((2 * whiteCount (morph_image meanOp image) : Nat) : ℚ) <
          ((totalPixels (morph_image meanOp image) : Nat) : ℚ) := by push_cast; linarith
      exact_mod_cast hn
  · rfl

/-- Witness for C2 on a concrete bright 1x1 image. -/
theorem contrast_iff_white_lt_half_witness :
    (contrast_applied idMean testBright = true ↔
      whiteFraction (morph_image idMean testBright) < 1 / 2)
  ∧ result_image idMean testBright =
      (if contrast_applied idMean testBright then contrastEnhance2 (morph_image idMean testBright)
       else morph_image idMean testBright) :=
  contrast_iff_white_lt_half idMean testBright (by decide)

/-- C3: when the load raises, or a processing library call raises after a
successful load, `preprocess_image` exits with status 1 and the file at the
path is left exactly as it was: the save is only reached after all
processing succeeds. -/
theorem error_exit_no_write (meanOp : Img → Img)
    (decode : Option Img → Except String Img) (procErr : Img → Option String)
    (fs : Option Img) (e : String) :
    (decode fs = Except.error e →
      preprocess_image meanOp decode procErr fs = (1, fs))
  ∧ (∀ image, decode fs = Except.ok image → procErr image = some e →
      preprocess_image meanOp decode procErr fs = (1, fs)) := by
  constructor
  · intro h
    unfold preprocess_image
    rw [h]
  · intro image h1 h2
    unfold preprocess_image
    rw [h1]
    dsimp only
    rw [h2]

/-- Witness for C3 with an unreadable file. -/
theorem error_exit_no_write_witness :
    preprocess_image idMean decodeBad noErr (some testBright) = (1, some testBright) :=
  (error_exit_no_write idMean decodeBad noErr (some testBright) ("bad")).1 rfl

/-- C4: the saved output image of every successful run has the width and
height of the loaded input image; no pipeline stage changes the
dimensions. -/
theorem preprocessing_preserves_dims (meanOp : Img → Img) (image : Img) :
    (result_image meanOp image).width = image.width ∧
      (result_image meanOp image).height = image.height := by
  unfold result_image
  split <;>
    exact ⟨adaptive_thresh_width meanOp image, adaptive_thresh_height meanOp image⟩

/-- C5: the saved output of every successful run is a single-channel image
whose pixel values all fit in one byte, whatever the channel count of the
input. -/
theorem output_single_channel_byte (meanOp : Img → Img) (image : Img) :
    (result_image meanOp image).channels = 1 ∧
      ∀ c x y, x < image.width → y < image.height →
        (result_image meanOp image).px c x y ≤ 255 := by
  constructor
  · unfold result_image
    split <;> rfl
  · intro c x y _ _
    have h : (result_image meanOp image).px c x y = 0 ∨
        (result_image meanOp image).px c x y = 255 := by
      unfold result_image
      split
      · exact contrast_px_mem (morph_image meanOp image)
          (fun i j => morph_px_mem meanOp image 0 i j) c x y
      · exact morph_px_mem meanOp image c x y
    rcases h with h | h <;> omega

/-- Witness for C5 at the single pixel of a concrete image. -/
theorem output_single_channel_byte_witness :
    (result_image idMean testBright).channels = 1 ∧
      (result_image idMean testBright).px 0 0 0 ≤ 255 :=
  ⟨(output_single_channel_byte idMean testBright).1,
    (output_single_channel_byte idMean testBright).2 0 0 0 (by decide) (by decide)⟩

/-- C6: invoking either CLI with missing arguments (no argument to the
preprocessor; no action, or action "ocr" without an image path, to the OCR
runner) or with an unknown action makes the process exit with status 1, and
the preprocessor leaves the file untouched. -/
theorem missing_args_exit_one (μ : Type) (meanOp : Img → Img)
    (decode : Option Img → Except String Img) (procErr : Img → Option String)
    (mangaOcr : Except String μ) (callOcr : μ → String → Except String String) :
    (∀ argv fs, argv.length < 2 →
      preprocessing_main meanOp decode procErr argv fs = (1, fs))
  ∧ (∀ argv, argv.length < 2 → (ocr_main μ mangaOcr callOcr argv).1 = 1)
  ∧ (∀ argv, argv.getD 1 "" = "ocr" → argv.length < 3 →
      (ocr_main μ mangaOcr callOcr argv).1 = 1)
  ∧ (∀ argv, 2 ≤ argv.length → argv.getD 1 "" ≠ "init" → argv.getD 1 "" ≠ "ocr" →
      (ocr_main μ mangaOcr callOcr argv).1 = 1) := by
  refine ⟨?_, ?_, ?_, ?_⟩
  · intro argv fs h
    unfold preprocessing_main
    rw [if_pos h]
  · intro argv h
    unfold ocr_main
    rw [if_pos h]
  · intro argv ha h3
    unfold ocr_main
    by_cases h2 : argv.length < 2
    · rw [if_pos h2]
    · rw [if_neg h2, if_neg (by rw [ha]; decide), if_pos ha, if_pos h3]
  · intro argv h2 hne1 hne2
    unfold ocr_main
    rw [if_neg (by omega), if_neg hne1, if_neg hne2]

/-- Witness for C6 on concrete short and unknown-action argument lists. -/
theorem missing_args_exit_one_witness :
    preprocessing_main idMean decodeBad noErr (["preprocessing.py"]) (some testBright) =
      (1, some testBright)
  ∧ (ocr_main Unit (Except.error ("x")) failCall (["ocr.py"])).1 = 1
  ∧ (ocr_main Unit (Except.error ("x")) failCall (["ocr.py", "ocr"])).1 = 1
  ∧ (ocr_main Unit (Except.error ("x")) failCall (["ocr.py", "wat"])).1 = 1 := by
  refine ⟨?_, ?_, ?_, ?_⟩
  · exact (missing_args_exit_one Unit idMean decodeBad noErr (Except.error ("x"))
      failCall).1 (["preprocessing.py"]) (some testBright) (by decide)
  · exact (missing_args_exit_one Unit idMean decodeBad noErr (Except.error ("x"))
      failCall).2.1 (["ocr.py"]) (by decide)
  · exact (missing_args_exit_one Unit idMean decodeBad noErr (Except.error ("x"))
      failCall).2.2.1 (["ocr.py", "ocr"]) rfl (by decide)
  · exact (missing_args_exit_one Unit idMean decodeBad noErr (Except.error ("x"))
      failCall).2.2.2 (["ocr.py", "wat"]) (by decide) (by decide) (by decide)

/-- C7: an exception raised by the model constructor or by the recognition
call is caught inside `initialize_ocr` respectively `perform_ocr`; the
function logs a message and returns `none` rather than propagating the
fault. -/
theorem ocr_errors_caught (μ : Type) (callOcr : μ → String → Except String String)
    (m : μ) (image_path e : String) :
    ((initialize_ocr μ (Except.error e)).1 = none ∧
      ("Error initializing OCR model: " ++ e) ∈ (initialize_ocr μ (Except.error e)).2)
  ∧ (callOcr m image_path = Except.error e →
      (perform_ocr μ callOcr m image_path).1 = none ∧
        ("Error performing OCR: " ++ e) ∈ (perform_ocr μ callOcr m image_path).2) := by
  constructor
  · exact ⟨rfl, by simp [initialize_ocr]⟩
  · intro h
    unfold perform_ocr
    rw [h]
    exact ⟨rfl, by simp⟩

/-- Witness for C7 with a failing constructor and a failing recognition. -/
theorem ocr_errors_caught_witness :
    (initialize_ocr Unit (Except.error ("boom"))).1 = none ∧
      (perform_ocr Unit failCall () ("img.png")).1 = none := by
  constructor
  · exact (ocr_errors_caught Unit failCall () ("img.png") ("boom")).1.1
  · exact ((ocr_errors_caught Unit failCall () ("img.png") ("boom")).2 rfl).1

/-- C8: with a valid action ("init", or "ocr" with an image path) the OCR
runner exits with status 0 even when initialization or recognition fails;
those failures put an error line on the error stream and nothing on
standard output. -/
theorem ocr_valid_action_exit_zero (μ : Type) (mangaOcr : Except String μ)
    (callOcr : μ → String → Except String String) (argv : List String) :
    (argv.getD 1 "" = "init" → 2 ≤ argv.length →
      (ocr_main μ mangaOcr callOcr argv).1 = 0)
  ∧ (argv.getD 1 "" = "ocr" → 3 ≤ argv.length →
      (ocr_main μ mangaOcr callOcr argv).1 = 0)
  ∧ (∀ e, mangaOcr = Except.error e → 2 ≤ argv.length →
      (argv.getD 1 "" = "init" ∨ (argv.getD 1 "" = "ocr" ∧ 3 ≤ argv.length)) →
      (ocr_main μ mangaOcr callOcr argv).2.1 = [] ∧
        ("Error: OCR model initialization failed") ∈ (ocr_main μ mangaOcr callOcr argv).2.2)
  ∧ (∀ m e, mangaOcr = Except.ok m → argv.getD 1 "" = "ocr" → 3 ≤ argv.length →
      callOcr m (argv.getD 2 "") = Except.error e →
      (ocr_main μ mangaOcr callOcr argv).2.1 = [] ∧
        ("Error: OCR failed") ∈ (ocr_main μ mangaOcr callOcr argv).2.2) := by
  refine ⟨?_, ?_, ?_, ?_⟩
  · intro ha hlen
    unfold ocr_main
    rw [if_neg (by omega), if_pos ha]
    cases mangaOcr <;> rfl
  · intro ha hlen
    unfold ocr_main
    rw [if_neg (by omega), if_neg (by rw [ha]; decide), if_pos ha, if_neg (by omega)]
    cases mangaOcr with
    | error e => rfl
    | ok m =>
      unfold initialize_ocr
      dsimp only
      unfold perform_ocr
      cases hc : callOcr m (argv.getD 2 "")
      · rfl
      · dsimp only
        split <;> rfl
  · intro e he hlen hcase
    subst he
    rcases hcase with ha | ⟨ha, h3⟩
    · unfold ocr_main
      rw [if_neg (by omega), if_pos ha]
      unfold initialize_ocr
      exact ⟨rfl, by simp⟩
    · unfold ocr_main
      rw [if_neg (by omega), if_neg (by rw [ha]; decide), if_pos ha, if_neg (by omega)]
      unfold initialize_ocr
      exact ⟨rfl, by simp⟩
  · intro m e hm ha h3 hc
    subst hm
    unfold ocr_main
    rw [if_neg (by omega), if_neg (by rw [ha]; decide), if_pos ha, if_neg (by omega)]
    unfold initialize_ocr
    dsimp only
    unfold perform_ocr
    rw [hc]
    exact ⟨rfl, by simp⟩

/-- Witness for C8 on concrete valid invocations with failing model calls. -/
theorem ocr_valid_action_exit_zero_witness :
    (ocr_main Unit (Except.error ("x")) failCall (["ocr.py", "init"])).1 = 0
  ∧ (ocr_main Unit (Except.error ("x")) failCall (["ocr.py", "ocr", "a.png"])).1 = 0 := by
  constructor
  · exact (ocr_valid_action_exit_zero Unit (Except.error ("x")) failCall
      (["ocr.py", "init"])).1 rfl (by decide)
  · exact (ocr_valid_action_exit_zero Unit (Except.error ("x")) failCall
      (["ocr.py", "ocr", "a.png"])).2.1 rfl (by decide)

/-- C9: every pixel of the saved output image is 0 or 255: thresholding
produces only those two values, the closing selects among them, and the 2x
contrast enhancement fixes both. -/
theorem output_binary_values (meanOp : Img → Img) (image : Img) (c x y : Nat)
    (hx : x < image.width) (hy : y < image.height) :
    (result_image meanOp image).px c x y = 0 ∨
      (result_image meanOp image).px c x y = 255 := by
  unfold result_image
  split
  · exact contrast_px_mem (morph_image meanOp image)
      (fun i j => morph_px_mem meanOp image 0 i j) c x y
  · exact morph_px_mem meanOp image c x y

/-- Witness for C9 at the single pixel of a concrete image. -/
theorem output_binary_values_witness :
    (result_image idMean testBright).px 0 0 0 = 0 ∨
      (result_image idMean testBright).px 0 0 0 = 255 :=
  output_binary_values idMean testBright 0 0 0 (by decide) (by decide)

/-- C10: the 3x3 one-iteration closing is applied unconditionally to the
thresholded image; both the white-pixel count driving the contrast decision
and the saved output are derived from the closed image, the unclosed
thresholded image being discarded. -/
theorem closing_unconditional (meanOp : Img → Img) (image : Img) :
    morph_image meanOp image = morphClose3 (adaptive_thresh_image meanOp image)
  ∧ contrast_applied meanOp image =
      decide (2 * whiteCount (morphClose3 (adaptive_thresh_image meanOp image)) <
        totalPixels (morphClose3 (adaptive_thresh_image meanOp image)))
  ∧ (result_image meanOp image = contrastEnhance2 (morph_image meanOp image) ∨
      result_image meanOp image = morph_image meanOp image) := by
  refine ⟨rfl, rfl, ?_⟩
  unfold result_image
  split
  · exact Or.inl rfl
  · exact Or.inr rfl
